import Mathlib

/-!
Shallow embedding of the phishing-detector pipeline
(src/phishing-detector/src: preprocessamento.py, cache.py, features.py,
modelo.py, utils.py) and proofs about it.

Python strings are modelled as `List Char` (ASCII inputs); machine floats
as exact rationals `ℚ`; the external transcendental operations of the ML
libraries (the logistic link `expit` and the square root used by the
standard scaler) are passed as explicit function parameters, since the
properties proved here do not depend on their values.  Fallible operations
return `Except`/`Option`.  Recursions that consume a varying number of
characters per step carry an explicit fuel argument (initialised to the
text length, which bounds the number of steps) so that every definition
reduces by kernel evaluation.
-/

namespace Phish

/-- ASCII lower-casing of one character, the behaviour of Python
`str.lower` on the ASCII inputs considered here. -/
def asciiLower (c : Char) : Char :=
  if 'A' ≤ c ∧ c ≤ 'Z' then Char.ofNat (c.toNat + 32) else c

/-- Python `texto.lower()` on a character list. -/
def pyLower (t : List Char) : List Char := t.map asciiLower

/-- Python substring membership `p in t` (nonempty needle at any position,
empty needle always present). -/
def containsSub (p : List Char) : List Char → Bool
  | [] => p.isEmpty
  | c :: rest => p.isPrefixOf (c :: rest) || containsSub p rest

/-- Python whitespace class `\s` over ASCII. -/
def isPySpace (c : Char) : Bool :=
  c = ' ' || c = '\t' || c = '\n' || c = '\x0d' || c = '\x0b' || c = '\x0c'

/-- Python `str.split()` with no argument: split on runs of whitespace,
dropping empty pieces. -/
def pySplit (t : List Char) : List (List Char) :=
  ((t.splitOnP (fun c => isPySpace c)).map id).filter (fun w => ¬ w.isEmpty)

/-- Join a list of words with single spaces, Python `' '.join(ws)`. -/
def joinSpaces : List (List Char) → List Char
  | [] => []
  | [w] => w
  | w :: ws => w ++ ' ' :: joinSpaces ws

/-- DetectorPhishing._calcular_nivel_risco (modelo.py lines 258-273):
risk band from the phishing probability. -/
def calcular_nivel_risco (probabilidade : ℚ) : String :=
  if probabilidade < 0.3 then "BAIXO"
  else if probabilidade < 0.7 then "MÉDIO"
  else "ALTO"

/-- Assoc-list update with Python-dict semantics: overwrite the value at an
existing key, otherwise append the new pair. -/
def dictInsert (k : String) (v : String) : List (String × String) → List (String × String)
  | [] => [(k, v)]
  | (k2, v2) :: rest => if k2 = k then (k, v) :: rest else (k2, v2) :: dictInsert k v rest

/-- CachePreprocessamento (cache.py): the in-memory mapping from a content
hash of the raw text to its preprocessed form.  The MD5 digest of hashlib
is external; it enters as the function parameter `hash` of each operation. -/
structure CachePreprocessamento where
  cache_memoria : List (String × String)
deriving DecidableEq

/-- CachePreprocessamento.obter (cache.py lines 59-67): look the hashed key
up in the in-memory map, `None` when absent. -/
def obter (hash : String → String) (c : CachePreprocessamento) (texto : String) :
    Option String :=
  c.cache_memoria.lookup (hash texto)

/-- CachePreprocessamento.adicionar (cache.py lines 69-72): store the
processed text under the hash of the original text. -/
def adicionar (hash : String → String) (c : CachePreprocessamento)
    (texto_original texto_processado : String) : CachePreprocessamento :=
  ⟨dictInsert (hash texto_original) texto_processado c.cache_memoria⟩

/-- CachePreprocessamento.limpar (cache.py lines 74-79): empty the
in-memory map (the on-disk snapshot file it also removes is outside the
embedded state). -/
def limpar (_c : CachePreprocessamento) : CachePreprocessamento := ⟨[]⟩

/-- ExtratorFeatures.palavras_urgencia (features.py lines 43-46). -/
def palavras_urgencia : List String :=
  ["urgent", "immediately", "now", "expire", "suspended",
   "verify", "confirm", "click", "act", "limited", "hurry"]

/-- ExtratorFeatures.palavras_financeiras (features.py lines 49-52). -/
def palavras_financeiras : List String :=
  ["money", "bank", "account", "credit", "card", "payment",
   "invoice", "transfer", "wire", "dollar", "prize", "winner"]

/-- ExtratorFeatures.detectar_palavras_urgencia (features.py lines 103-114):
`sum(1 for palavra in self.palavras_urgencia if palavra in texto_lower)`. -/
def detectar_palavras_urgencia (texto : List Char) : Nat :=
  (palavras_urgencia.map
    (fun palavra => if containsSub palavra.data (pyLower texto) then 1 else 0)).sum

/-- ExtratorFeatures.detectar_palavras_financeiras (features.py lines
116-127). -/
def detectar_palavras_financeiras (texto : List Char) : Nat :=
  (palavras_financeiras.map
    (fun palavra => if containsSub palavra.data (pyLower texto) then 1 else 0)).sum

/-- ExtratorFeatures.contar_urls (features.py lines 56-68): the number of
matches of the regex `http[s]?://|URL_TOKEN|www\.` in `texto.lower()`,
found left to right, alternatives tried in order, non-overlapping.  Note
the scan runs on the lower-cased text while the `URL_TOKEN` alternative is
upper case.  Fuel starts at the text length, an upper bound on the steps. -/
def contar_urls_go : Nat → List Char → Nat
  | 0, _ => 0
  | _ + 1, [] => 0
  | fuel + 1, c :: rest =>
    let s := c :: rest
    if "https://".data.isPrefixOf s then 1 + contar_urls_go fuel (s.drop 8)
    else if "http://".data.isPrefixOf s then 1 + contar_urls_go fuel (s.drop 7)
    else if "URL_TOKEN".data.isPrefixOf s then 1 + contar_urls_go fuel (s.drop 9)
    else if "www.".data.isPrefixOf s then 1 + contar_urls_go fuel (s.drop 4)
    else contar_urls_go fuel rest

/-- ExtratorFeatures.contar_urls (features.py lines 56-68). -/
def contar_urls (texto : List Char) : Nat :=
  contar_urls_go texto.length (pyLower texto)

/-- ASCII letter test (Python `str.isalpha` on the ASCII inputs here). -/
def isAsciiAlpha (c : Char) : Bool := ('a' ≤ c && c ≤ 'z') || ('A' ≤ c && c ≤ 'Z')

/-- ASCII upper-case test (Python `str.isupper` on single ASCII letters). -/
def isAsciiUpper (c : Char) : Bool := 'A' ≤ c && c ≤ 'Z'

/-- ExtratorFeatures.proporcao_maiusculas (features.py lines 70-88):
upper-case letters over all letters, 0.0 when the text or its letter list
is empty. -/
def proporcao_maiusculas (texto : List Char) : ℚ :=
  if texto.isEmpty then 0
  else
    let letras := texto.filter isAsciiAlpha
    if letras.isEmpty then 0
    else ((letras.filter isAsciiUpper).length : ℚ) / (letras.length : ℚ)

/-- Character class `[!?$%&*@#]` of features.py line 100. -/
def caracteres_especiais : List Char := "!?$%&*@#".data

/-- ExtratorFeatures.contar_caracteres_especiais (features.py lines 90-101). -/
def contar_caracteres_especiais (texto : List Char) : Nat :=
  (texto.filter (fun c => caracteres_especiais.contains c)).length

/-- ExtratorFeatures.tamanho_texto (features.py lines 129-139): number of
whitespace-delimited words. -/
def tamanho_texto (texto : List Char) : Nat := (pySplit texto).length

/-- One character of the body of the URL regex of preprocessamento.py line
74: `[a-zA-Z]`, `[0-9]`, the range class `[$-_@.&+]` (a character range
from `$` 0x24 to `_` 0x5F, the extra members being inside it), and
`[!*\\(\\),]`; the percent-escape alternative is subsumed since `%` and the
hex digits are each matchable on their own. -/
def urlBodyChar (c : Char) : Bool :=
  ('a' ≤ c && c ≤ 'z') || ('A' ≤ c && c ≤ 'Z') || ('0' ≤ c && c ≤ '9') ||
  ('$' ≤ c && c ≤ '_') || c = '!' || c = '*' || c = '\\' || c = '(' || c = ')' || c = ','

/-- PreprocessadorTexto.limpar_url (preprocessamento.py lines 63-85):
`re.sub` of the URL pattern by ` URL_TOKEN `, leftmost non-overlapping
matches; the scheme part matches `https://` or `http://` and the body is
the longest nonempty run of `urlBodyChar`. -/
def limpar_url_go : Nat → List Char → List Char
  | 0, t => t
  | _ + 1, [] => []
  | fuel + 1, c :: rest =>
    let s := c :: rest
    let pLen : Nat :=
      if "https://".data.isPrefixOf s then 8
      else if "http://".data.isPrefixOf s then 7 else 0
    if pLen = 0 then c :: limpar_url_go fuel rest
    else
      let corpo := (s.drop pLen).takeWhile urlBodyChar
      if corpo.isEmpty then c :: limpar_url_go fuel rest
      else " URL_TOKEN ".data ++ limpar_url_go fuel (s.drop (pLen + corpo.length))

/-- PreprocessadorTexto.limpar_url (preprocessamento.py lines 63-85). -/
def limpar_url (texto : List Char) : List Char := limpar_url_go texto.length texto

/-- Python `string.punctuation`. -/
def py_punctuation : List Char :=
  "!\"#$%&'()*+,-./:;<=>?@[\\]^_`\x7b|\x7d~".data

/-- Python `str.replace(pat, rep)`: replace every non-overlapping
occurrence, left to right. -/
def pyReplace_go (pat rep : List Char) : Nat → List Char → List Char
  | 0, t => t
  | _ + 1, [] => []
  | fuel + 1, c :: rest =>
    if ¬ pat.isEmpty ∧ pat.isPrefixOf (c :: rest) then
      rep ++ pyReplace_go pat rep fuel ((c :: rest).drop pat.length)
    else c :: pyReplace_go pat rep fuel rest

/-- Python `str.replace(pat, rep)` for a nonempty pattern. -/
def pyReplace (texto pat rep : List Char) : List Char :=
  pyReplace_go pat rep texto.length texto

/-- PreprocessadorTexto.limpar_caracteres_especiais (preprocessamento.py
lines 87-110): delete the characters of `string.punctuation`, drop
non-ASCII characters, and restore the sentinel `URL_TOKEN` (whose
underscore the punctuation pass removed) when the input contained it. -/
def limpar_caracteres_especiais (texto : List Char) : List Char :=
  let has_url_token := containsSub "URL_TOKEN".data texto
  let t1 := texto.filter (fun c => ¬ py_punctuation.contains c)
  let t2 := t1.filter (fun c => c.toNat < 128)
  if has_url_token then pyReplace t2 "URLTOKEN".data "URL_TOKEN".data else t2

/-- Collapse of every whitespace run to one space, `re.sub(r'\s+', ' ', t)`
(preprocessamento.py line 123). -/
def collapseSpaces_go : Nat → List Char → List Char
  | 0, t => t
  | _ + 1, [] => []
  | fuel + 1, c :: rest =>
    if isPySpace c then ' ' :: collapseSpaces_go fuel (rest.dropWhile isPySpace)
    else c :: collapseSpaces_go fuel rest

/-- Python `str.strip()`: drop whitespace at both ends. -/
def pyStrip (t : List Char) : List Char :=
  ((t.dropWhile isPySpace).reverse.dropWhile isPySpace).reverse

/-- PreprocessadorTexto.normalizar_espacos (preprocessamento.py lines
112-124). -/
def normalizar_espacos (texto : List Char) : List Char :=
  pyStrip (collapseSpaces_go texto.length texto)

/-- PreprocessadorTexto.remover_stopwords_texto (preprocessamento.py lines
126-145): keep the words whose lower-cased form is not in the configured
stopword set (a no-op when stopword removal is off). -/
def remover_stopwords_texto (remover : Bool) (stopwords : List String)
    (texto : List Char) : List Char :=
  if ¬ remover then texto
  else
    joinSpaces ((pySplit texto).filter
      (fun palavra => ¬ stopwords.contains (String.mk (pyLower palavra))))

/-- PreprocessadorTexto._processar_sem_cache (preprocessamento.py lines
165-173): lower-case, URL sentinel substitution, punctuation stripping,
whitespace normalisation, stopword removal — in that order. -/
def processar_sem_cache (remover : Bool) (stopwords : List String)
    (texto : List Char) : List Char :=
  remover_stopwords_texto remover stopwords
    (normalizar_espacos (limpar_caracteres_especiais (limpar_url (pyLower texto))))

/-- Python value passed to PreprocessadorTexto.processar: `None`, an actual
string, or any non-string object. -/
inductive PyInput where
  | none
  | str (s : String)
  | nonstr
deriving DecidableEq

/-- PreprocessadorTexto (preprocessamento.py): configuration (the loaded
stopword set already minus the protected urgency words, as built by
`__init__`) together with the preprocessing cache. -/
structure PreprocessadorTexto where
  idioma : String
  remover_stopwords : Bool
  stopwords : List String
  cache : CachePreprocessamento
deriving DecidableEq

/-- PreprocessadorTexto.processar (preprocessamento.py lines 147-163):
return the empty string on `None`/non-string/empty input, otherwise answer
from the cache when the hashed text is present, else run the pipeline and
record the result in the cache.  The MD5 digest is the parameter `hash`. -/
def processar (hash : String → String) (p : PreprocessadorTexto) :
    PyInput → String × PreprocessadorTexto
  | .none => ("", p)
  | .nonstr => ("", p)
  | .str texto =>
    if texto = "" then ("", p)
    else
      match obter hash p.cache texto with
      | some resultado_cache => (resultado_cache, p)
      | Option.none =>
        let r := String.mk
          (processar_sem_cache p.remover_stopwords p.stopwords texto.data)
        (r, { p with cache := adicionar hash p.cache texto r })

/-- Urgency words protected from stopword removal,
PreprocessadorTexto.palavras_urgencia (preprocessamento.py lines 55-58). -/
def palavras_urgencia_preproc : List String :=
  ["urgent", "immediately", "now", "act", "verify", "confirm",
   "suspended", "expires", "limited", "expire", "hurry", "quick"]

/-- Content of the NLTK english stopword corpus loaded by
`stopwords.words('english')` in PreprocessadorTexto.__init__
(external data file of the nltk dependency). -/
def nltk_stopwords_english : List String :=
  ["i", "me", "my", "myself", "we", "our", "ours", "ourselves", "you",
   "you're", "you've", "you'll", "you'd", "your", "yours", "yourself",
   "yourselves", "he", "him", "his", "himself", "she", "she's", "her",
   "hers", "herself", "it", "it's", "its", "itself", "they", "them",
   "their", "theirs", "themselves", "what", "which", "who", "whom",
   "this", "that", "that'll", "these", "those", "am", "is", "are", "was",
   "were", "be", "been", "being", "have", "has", "had", "having", "do",
   "does", "did", "doing", "a", "an", "the", "and", "but", "if", "or",
   "because", "as", "until", "while", "of", "at", "by", "for", "with",
   "about", "against", "between", "into", "through", "during", "before",
   "after", "above", "below", "to", "from", "up", "down", "in", "out",
   "on", "off", "over", "under", "again", "further", "then", "once",
   "here", "there", "when", "where", "why", "how", "all", "any", "both",
   "each", "few", "more", "most", "other", "some", "such", "no", "nor",
   "not", "only", "own", "same", "so", "than", "too", "very", "s", "t",
   "can", "will", "just", "don", "don't", "should", "should've", "now",
   "d", "ll", "m", "o", "re", "ve", "y", "ain", "aren", "aren't",
   "couldn", "couldn't", "didn", "didn't", "doesn", "doesn't", "hadn",
   "hadn't", "hasn", "hasn't", "haven", "haven't", "isn", "isn't", "ma",
   "mightn", "mightn't", "mustn", "mustn't", "needn", "needn't", "shan",
   "shan't", "shouldn", "shouldn't", "wasn", "wasn't", "weren",
   "weren't", "won", "won't", "wouldn", "wouldn't"]

/-- Stopword set of the english configuration after `__init__` subtracts
the protected urgency words (preprocessamento.py line 61). -/
def stopwords_english_config : List String :=
  nltk_stopwords_english.filter (fun w => ¬ palavras_urgencia_preproc.contains w)

/-- PreprocessadorTexto as built by `__init__('english')` with an empty
starting cache. -/
def preprocessador_english (cache : CachePreprocessamento) : PreprocessadorTexto :=
  ⟨"english", true, stopwords_english_config, cache⟩

/-- ExtratorFeatures (features.py): the configured maximum vocabulary size
and, once `treinar_tfidf` has run, the fitted TfidfVectorizer state,
modelled as the ordered vocabulary with each term's fitted idf discount
(`vectorizer.vocabulary_` / `vectorizer.idf_` of the sklearn dependency);
`Option.none` is the unfitted vectorizer. -/
structure ExtratorFeatures where
  max_features : Nat
  vocab : Option (List (String × ℚ))
deriving DecidableEq

/-- Occurrences of the token sequence `pat` starting at each position of
`toks` (n-gram count of one vocabulary term in a tokenised document). -/
def countSeqOcc (pat : List (List Char)) : List (List Char) → Nat
  | [] => 0
  | t :: rest => (if pat.isPrefixOf (t :: rest) then 1 else 0) + countSeqOcc pat rest

/-- Model of one entry of sklearn `TfidfVectorizer.transform` (external
library): the term's in-document frequency times its fitted
inverse-document-frequency discount.  (The library additionally applies
sublinear log scaling and l2 normalisation to the values; the claims
proved here depend only on the shape of the output — one row per text,
one entry per vocabulary term — not on the entries' values.) -/
def tfidf_value (texto : List Char) (termo : String) (idf : ℚ) : ℚ :=
  (countSeqOcc (pySplit termo.data) (pySplit texto) : ℚ) * idf

/-- ExtratorFeatures.transformar_tfidf (features.py lines 183-193): the
dense document-term matrix, one row per input text, one column per term of
the fitted vocabulary. -/
def transformar_tfidf (vocab : List (String × ℚ)) (textos : List (List Char)) :
    List (List ℚ) :=
  textos.map (fun t => vocab.map (fun par => tfidf_value t par.fst par.snd))

/-- ExtratorFeatures.extrair_features_manuais (features.py lines 141-168):
the six hand-crafted scalars per (preprocessed, original) text pair, in the
dict insertion order num_urls, prop_maiusculas, num_especiais,
palavras_urgencia, palavras_financeiras, tamanho_texto; `zip` pairs the
two lists; a missing `textos_originais` defaults to the preprocessed
texts. -/
def extrair_features_manuais (textos : List (List Char))
    (textos_originais : Option (List (List Char))) : List (List ℚ) :=
  let origs := textos_originais.getD textos
  (textos.zip origs).map (fun par =>
    [(contar_urls par.fst : ℚ),
     proporcao_maiusculas par.snd,
     (contar_caracteres_especiais par.snd : ℚ),
     (detectar_palavras_urgencia par.fst : ℚ),
     (detectar_palavras_financeiras par.fst : ℚ),
     (tamanho_texto par.fst : ℚ)])

/-- numpy `hstack` of two row-major matrices: row-wise concatenation,
a `ValueError` (modelled as `Option.none`) when the row counts differ. -/
def np_hstack (a b : List (List ℚ)) : Option (List (List ℚ)) :=
  if a.length = b.length then some (a.zipWith (fun x y => x ++ y) b) else none

/-- ExtratorFeatures.extrair_features_completas (features.py lines
195-221): TF-IDF columns followed by the six manual columns. -/
def extrair_features_completas (vocab : List (String × ℚ))
    (textos : List (List Char)) (textos_originais : Option (List (List Char))) :
    Option (List (List ℚ)) :=
  np_hstack (transformar_tfidf vocab textos)
    (extrair_features_manuais textos textos_originais)

/-- Mean of a list of rationals (sklearn uses the population mean). -/
def listMean (l : List ℚ) : ℚ := l.sum / (l.length : ℚ)

/-- Population variance of a list of rationals. -/
def listVar (l : List ℚ) : ℚ := listMean (l.map (fun x => (x - listMean l) ^ 2))

/-- Fitted state of sklearn `StandardScaler`: per-column mean and variance
of the matrix it was fitted on. -/
structure StandardScalerStats where
  mean : List ℚ
  var : List ℚ
deriving DecidableEq

/-- sklearn `StandardScaler.fit` (external library): per-column mean and
population variance of the row-major matrix. -/
def scaler_fit (X : List (List ℚ)) : StandardScalerStats :=
  ⟨(List.range (X.headD []).length).map (fun j => listMean (X.map (fun r => r.getD j 0))),
   (List.range (X.headD []).length).map (fun j => listVar (X.map (fun r => r.getD j 0)))⟩

/-- One row scaled against fitted statistics, per column
`(x - mean) / scale` with `scale = sqrt var`, a zero scale replaced by 1;
the irrational square root enters as the parameter `sqrtQ`.  Applied only
to rows whose feature count equals the statistics' length: the fit path
scales the matrix the statistics came from, and `scaler_transform` checks
the count first. -/
def scale_row (sqrtQ : ℚ → ℚ) (st : StandardScalerStats) (row : List ℚ) : List ℚ :=
  (row.zip (st.mean.zip st.var)).map
    (fun p => (p.fst - p.snd.fst) /
      (let s := sqrtQ p.snd.snd; if s = 0 then 1 else s))

/-- sklearn `StandardScaler.transform` (external library): scale every row
with the fitted per-column statistics; a matrix whose feature count
differs from the fitted statistics raises a ValueError (`Except.error`) —
it is never silently truncated or padded. -/
def scaler_transform (sqrtQ : ℚ → ℚ) (st : StandardScalerStats)
    (X : List (List ℚ)) : Except String (List (List ℚ)) :=
  if X.all (fun row => row.length = st.mean.length) then
    .ok (X.map (scale_row sqrtQ st))
  else
    .error "ValueError: X has a different number of features than StandardScaler was fitted with"

/-- DetectorPhishing.preparar_dados, training path after feature
extraction (modelo.py lines 98-112): the scaler is fitted by
`fit_transform` on the FULL feature matrix `X`, and only afterwards does
`train_test_split` partition the scaled rows into the training and test
sets.  The shuffled index partition sklearn chooses (random_state 42,
stratified) is supplied as the argument `splitIdx`, mapping the row count
to the (train indices, test indices) pair.  `fit_transform` scales the
very ndarray the statistics were computed from, whose rows all have the
fitted column count, so the scaling here is the unchecked `scale_row`. -/
def scale_and_split (sqrtQ : ℚ → ℚ) (splitIdx : Nat → List Nat × List Nat)
    (X : List (List ℚ)) (labels : List Nat) :
    StandardScalerStats × List (List ℚ) × List (List ℚ) × List Nat × List Nat :=
  let stats := scaler_fit X
  let Xs := X.map (scale_row sqrtQ stats)
  let idx := splitIdx X.length
  (stats,
   idx.fst.filterMap (fun i => Xs.get? i),
   idx.snd.filterMap (fun i => Xs.get? i),
   idx.fst.filterMap (fun i => labels.get? i),
   idx.snd.filterMap (fun i => labels.get? i))

/-- Fitted sklearn `LogisticRegression`: the weight vector and bias. -/
structure LogisticRegressionModel where
  coef : List ℚ
  intercept : ℚ
deriving DecidableEq

/-- DetectorPhishing (modelo.py): the whole pipeline state —
preprocessor (with its cache), feature extractor, scaler, linear model,
trained flag and recorded metrics. -/
structure DetectorPhishing where
  idioma : String
  max_features : Nat
  preprocessador : PreprocessadorTexto
  extrator : ExtratorFeatures
  scaler : Option StandardScalerStats
  modelo : Option LogisticRegressionModel
  esta_treinado : Bool
  metricas : List (String × ℚ)
deriving DecidableEq

/-- PreprocessadorTexto.processar_lote on a small batch (preprocessamento.py
lines 175-191, sequential path): process each text in order, threading the
cache state. -/
def processar_lote (hash : String → String) (p : PreprocessadorTexto)
    (textos : List String) : List String × PreprocessadorTexto :=
  textos.foldl (fun acc t =>
    let r := processar hash acc.snd (.str t)
    (acc.fst ++ [r.fst], r.snd)) ([], p)

/-- Dot product of two aligned rational vectors; applied only under the
shape check of `decision_function`, mirroring numpy raising on
misaligned shapes rather than truncating. -/
def dotQ (a b : List ℚ) : ℚ := ((a.zip b).map (fun p => p.fst * p.snd)).sum

/-- sklearn `LogisticRegression` decision function (external library):
the score `w·x + b` of every row of the feature matrix; a feature count
different from the coefficient length is a numpy shape mismatch and
raises a ValueError (`Except.error`) — never a truncated product. -/
def decision_function (m : LogisticRegressionModel) (X : List (List ℚ)) :
    Except String (List ℚ) :=
  if X.all (fun x => x.length = m.coef.length) then
    .ok (X.map (fun x => dotQ m.coef x + m.intercept))
  else
    .error "ValueError: matmul: input operand shapes misaligned"

/-- DetectorPhishing.preparar_dados, inference path (modelo.py lines
66-114 with `labels = None`): keep the original texts, preprocess through
the cache, extract the full feature vectors with the fitted vocabulary,
and — when the detector is trained — transform them with the already
fitted scaler (never refitting it).  Library errors for an unfitted
vectorizer or scaler surface as `Except.error`. -/
def preparar_dados_inferencia (hash : String → String) (sqrtQ : ℚ → ℚ)
    (d : DetectorPhishing) (textos : List String) :
    Except String (List (List ℚ) × DetectorPhishing) :=
  let textos_originais := textos
  let lote := processar_lote hash d.preprocessador textos
  let d2 := { d with preprocessador := lote.snd }
  match d.extrator.vocab with
  | Option.none => .error "NotFittedError: TfidfVectorizer"
  | some vocab =>
    match extrair_features_completas vocab (lote.fst.map String.data)
        (some (textos_originais.map String.data)) with
    | Option.none => .error "ValueError: hstack"
    | some X =>
      if d.esta_treinado then
        match d.scaler with
        | Option.none => .error "NotFittedError: StandardScaler"
        | some st => (scaler_transform sqrtQ st X).map (fun Xs => (Xs, d2))
      else .ok (X, d2)

/-- DetectorPhishing.predizer (modelo.py lines 203-225): require the
trained flag, prepare the feature matrix, and for each row produce the
predicted class (decision score strictly positive) and the phishing
probability (logistic link applied to the score; the transcendental
`expit` of the library enters as the parameter `expitQ`).  Shape errors
of the library — a feature count disagreeing with the scaler statistics
or with the coefficient vector — propagate as `Except.error`. -/
def predizer (hash : String → String) (sqrtQ expitQ : ℚ → ℚ)
    (d : DetectorPhishing) (textos : List String) :
    Except String ((List Bool × List ℚ) × DetectorPhishing) :=
  if ¬ d.esta_treinado then
    .error "Modelo não foi treinado ainda"
  else
    match d.modelo with
    | Option.none => .error "NotFittedError: LogisticRegression"
    | some m =>
      (preparar_dados_inferencia hash sqrtQ d textos).bind (fun r =>
        (decision_function m r.fst).map (fun scores =>
          ((scores.map (fun s => decide (0 < s)), scores.map expitQ), r.snd)))

/-- AnalysisResult returned by DetectorPhishing.analisar_email
(modelo.py lines 244-249). -/
structure AnalysisResult where
  e_phishing : Bool
  confianca : ℚ
  classificacao : String
  nivel_risco : String
deriving DecidableEq

/-- DetectorPhishing.analisar_email (modelo.py lines 227-256, without the
optional feature snapshot): classify one text and assemble the result
record with label, probability and risk band. -/
def analisar_email (hash : String → String) (sqrtQ expitQ : ℚ → ℚ)
    (d : DetectorPhishing) (texto : String) :
    Except String (AnalysisResult × DetectorPhishing) :=
  if ¬ d.esta_treinado then .error "Modelo não foi treinado ainda"
  else
    (predizer hash sqrtQ expitQ d [texto]).bind (fun r =>
      match r.fst.fst, r.fst.snd with
      | predicao :: _, probabilidade :: _ =>
        .ok ({ e_phishing := predicao,
               confianca := probabilidade,
               classificacao := if predicao then "PHISHING" else "LEGÍTIMO",
               nivel_risco := calcular_nivel_risco probabilidade },
             r.snd)
      | _, _ => .error "IndexError")

/-- Metadata record persisted with a model (modelo.py lines 352-356 plus
the timestamp utils.salvar_modelo adds at line 123). -/
structure ModelMetadata where
  idioma : String
  max_features : Nat
  metricas : List (String × ℚ)
  data_salvamento : String
deriving DecidableEq

/-- Pickled artifact on disk: either the dict `{'modelo': …, 'metadata': …}`
written by utils.salvar_modelo, or (for compatibility, utils.py lines
169-174) a bare pickled model object. -/
inductive PickleBlob where
  | wrapped (modelo : DetectorPhishing) (metadata : ModelMetadata)
  | bare (modelo : DetectorPhishing)
deriving DecidableEq

/-- utils.salvar_modelo (utils.py lines 103-143): add the save timestamp
(`datetime.now`, supplied as `agora`) to the metadata and pickle model and
metadata together; pickling and unpickling a value is the identity, so the
artifact is the value itself. -/
def salvar_modelo (modelo : DetectorPhishing)
    (metadata : ModelMetadata) (agora : String) : PickleBlob :=
  .wrapped modelo { metadata with data_salvamento := agora }

/-- DetectorPhishing.salvar (modelo.py lines 340-359): persist the whole
detector with its metadata record. -/
def DetectorPhishing.salvar (d : DetectorPhishing) (agora : String) : PickleBlob :=
  salvar_modelo d ⟨d.idioma, d.max_features, d.metricas, ""⟩ agora

/-- utils.carregar_modelo (utils.py lines 146-184): a missing file raises
FileNotFoundError; a present artifact is unpickled and returned as-is —
the wrapped dict is split into model and metadata, anything else is the
model with empty metadata.  No compatibility validation is performed. -/
def carregar_modelo :
    Option PickleBlob → Except String (DetectorPhishing × Option ModelMetadata)
  | Option.none => .error "FileNotFoundError: Modelo não encontrado"
  | some (.wrapped m meta) => .ok (m, some meta)
  | some (.bare m) => .ok (m, Option.none)

/-- DetectorPhishing.carregar (modelo.py lines 361-380): load via
utils.carregar_modelo and return the detector instance. -/
def DetectorPhishing.carregar (arquivo : Option PickleBlob) :
    Except String DetectorPhishing :=
  (carregar_modelo arquivo).map Prod.fst

/-- Preprocessor state with an empty stopword set and an empty cache, used
to build concrete detector instances. -/
def preprocessador_vazio : PreprocessadorTexto := ⟨"english", true, [], ⟨[]⟩⟩

/-- Concrete detector whose fitted vocabulary has 3 terms while its weight
vector has 5 entries (3 + 6 ≠ 5): an artifact no compatible pipeline run
could have produced. -/
def detector_incompativel : DetectorPhishing :=
  { idioma := "english"
    max_features := 3000
    preprocessador := preprocessador_vazio
    extrator := ⟨3000, some [("a", 1), ("b", 1), ("c", 1)]⟩
    scaler := some ⟨[0], [1]⟩
    modelo := some ⟨[1, 2, 3, 4, 5], 0⟩
    esta_treinado := true
    metricas := [] }

end Phish

namespace Phish

/-- Counting an indicator sum as the length of a filter. -/
theorem sum_indicator_eq_length_filter (l : List String) (f : String → Bool) :
    (l.map (fun p => if f p then 1 else 0)).sum = (l.filter f).length := by
  induction l with
  | nil => rfl
  | cons a t ih =>
    by_cases h : f a <;> simp [List.filter, h, ih, Nat.add_comm]

/-- Looking a key up right after a dict-style insert at that key yields the
inserted value. -/
theorem lookup_dictInsert (k v : String) (l : List (String × String)) :
    (dictInsert k v l).lookup k = some v := by
  induction l with
  | nil => simp [dictInsert, List.lookup]
  | cons a t ih =>
    by_cases h : a.fst = k
    · simp [dictInsert, h, List.lookup]
    · simp only [dictInsert, h, if_false]
      have : (k == a.fst) = false := by
        simp [beq_eq_false_iff_ne]
        exact fun he => h he.symm
      simp [List.lookup, this, ih]

/-- Rows of a row-wise concatenation of two matrices of constant row
lengths have the concatenated length. -/
theorem zipWith_append_row_length {α : Type} (n m : Nat) :
    ∀ (a b : List (List α)), (∀ x ∈ a, x.length = n) → (∀ x ∈ b, x.length = m) →
      ∀ row ∈ a.zipWith (fun x y => x ++ y) b, row.length = n + m := by
  intro a
  induction a with
  | nil => intro b _ _ row hrow; simp [List.zipWith] at hrow
  | cons x xs ih =>
    intro b ha hb row hrow
    cases b with
    | nil => simp [List.zipWith] at hrow
    | cons y ys =>
      simp only [List.zipWith, List.mem_cons] at hrow
      rcases hrow with h | h
      · subst h
        rw [List.length_append, ha x (by simp), hb y (by simp)]
      · exact ih ys (fun z hz => ha z (by simp [hz])) (fun z hz => hb z (by simp [hz])) row h

/-- C1: for every probability p in [0,1], the risk-banding function
returns BAIXO exactly when p < 0.3, MÉDIO exactly when 0.3 ≤ p < 0.7 and
ALTO exactly when 0.7 ≤ p; in particular 0.29999 ↦ BAIXO, 0.3 ↦ MÉDIO,
0.69999 ↦ MÉDIO and 0.7 ↦ ALTO. -/
theorem C1_risk_banding (p : ℚ) (_h0 : 0 ≤ p) (_h1 : p ≤ 1) :
    (calcular_nivel_risco p = "BAIXO" ↔ p < 0.3) ∧
    (calcular_nivel_risco p = "MÉDIO" ↔ 0.3 ≤ p ∧ p < 0.7) ∧
    (calcular_nivel_risco p = "ALTO" ↔ 0.7 ≤ p) ∧
    calcular_nivel_risco 0.29999 = "BAIXO" ∧
    calcular_nivel_risco 0.3 = "MÉDIO" ∧
    calcular_nivel_risco 0.69999 = "MÉDIO" ∧
    calcular_nivel_risco 0.7 = "ALTO" := by
  have hMB : ("MÉDIO" : String) ≠ "BAIXO" := by decide
  have hAB : ("ALTO" : String) ≠ "BAIXO" := by decide
  have hBM : ("BAIXO" : String) ≠ "MÉDIO" := by decide
  have hAM : ("ALTO" : String) ≠ "MÉDIO" := by decide
  have hBA : ("BAIXO" : String) ≠ "ALTO" := by decide
  have hMA : ("MÉDIO" : String) ≠ "ALTO" := by decide
  refine ⟨?_, ?_, ?_, by norm_num [calcular_nivel_risco],
    by norm_num [calcular_nivel_risco], by norm_num [calcular_nivel_risco],
    by norm_num [calcular_nivel_risco]⟩ <;>
    unfold calcular_nivel_risco <;> split_ifs with h h2
  · simp [h]
  · simp [hMB, h]
  · simp [hAB, h]
  · simp only [hBM, false_iff]
    exact fun hc => absurd hc.1 (not_le.mpr h)
  · simp only [true_iff]
    exact ⟨le_of_not_lt h, h2⟩
  · simp only [hAM, false_iff]
    exact fun hc => h2 hc.2
  · simp only [hBA, false_iff]
    intro hc; linarith
  · simp only [hMA, false_iff]
    intro hc; linarith
  · simp only [true_iff]
    exact le_of_not_lt h2

/-- Witness for C1 at the concrete probability 1/2. -/
theorem C1_risk_banding_witness :
    (0 : ℚ) ≤ 1/2 ∧ (1/2 : ℚ) ≤ 1 ∧
    (calcular_nivel_risco (1/2) = "MÉDIO" ↔ (0.3 : ℚ) ≤ 1/2 ∧ (1/2 : ℚ) < 0.7) :=
  ⟨by norm_num, by norm_num,
   (C1_risk_banding (1/2) (by norm_num) (by norm_num)).2.1⟩

/-- C2: code-bug evidence.  In preparar_dados the scaler is fitted by
fit_transform on the FULL feature matrix before train_test_split runs, so
the held-out test rows contribute to the feature-scaling statistics.  For
the two-row matrix [[0],[100]] the statistics the code records have mean
50 whichever way the split later assigns the rows to train and test,
while the mean of either possible one-row training split alone is 0 or
100 — never the recorded 50. -/
theorem C2_scaler_fitted_before_split :
    ((scale_and_split id (fun _ => ([0], [1])) [[0], [100]] [0, 1]).fst).mean = [50] ∧
    ((scale_and_split id (fun _ => ([1], [0])) [[0], [100]] [0, 1]).fst).mean = [50] ∧
    (scaler_fit [[0]]).mean = [0] ∧
    (scaler_fit [[100]]).mean = [100] ∧
    ((50 : ℚ) ≠ 0) ∧ ((50 : ℚ) ≠ 100) := by
  refine ⟨?_, ?_, ?_, ?_, by norm_num, by norm_num⟩ <;>
    norm_num [scale_and_split, scaler_fit, listMean, List.range_succ, List.range_zero]

/-- C3: code-bug evidence.  contar_urls scans the lower-cased text with a
case-sensitive pattern whose sentinel alternative URL_TOKEN is upper
case, and the pipeline hands it the preprocessed text, in which URLs have
already been replaced by that sentinel.  On the spec's scenario text the
original text contains 2 URL-shaped substrings, but the url_count the
pipeline's feature extraction produces (the first entry of the manual
feature row) is 0. -/
theorem C3_pipeline_url_count :
    contar_urls "Visit http://example.com and https://test.org now".data = 2 ∧
    processar_sem_cache true stopwords_english_config
        "Visit http://example.com and https://test.org now".data =
      "visit URL_TOKEN URL_TOKEN now".data ∧
    ((extrair_features_manuais
        [processar_sem_cache true stopwords_english_config
            "Visit http://example.com and https://test.org now".data]
        (some ["Visit http://example.com and https://test.org now".data])).headD
        []).headD 1 = 0 ∧
    (0 : ℚ) ≠ 2 := by
  have hz : contar_urls (processar_sem_cache true stopwords_english_config
      "Visit http://example.com and https://test.org now".data) = 0 := by decide
  refine ⟨by decide, by decide, ?_, by norm_num⟩
  simp [extrair_features_manuais, List.zip, hz]

/-- C4 counterexample: loading the concrete artifact whose fitted
vocabulary size 3 (so feature count 9) disagrees with its weight-vector
length 5 succeeds with no error — both as a bare pickle and as a wrapped
artifact — so the clear load-time failure the claim requires does not
happen; the mismatch only surfaces afterwards, as a shape ValueError when
the loaded detector is asked to predict. -/
theorem C4_counterexample_incompatible_artifact_loads :
    (detector_incompativel.extrator.vocab.getD []).length + 6 = 9 ∧
    (detector_incompativel.modelo.map (fun m => m.coef.length)).getD 0 = 5 ∧
    (9 : Nat) ≠ 5 ∧
    (carregar_modelo (some (PickleBlob.bare detector_incompativel))).toOption.isSome
      = true ∧
    DetectorPhishing.carregar
        (some (PickleBlob.wrapped detector_incompativel ⟨"english", 3000, [], "t"⟩)) =
      Except.ok detector_incompativel ∧
    (predizer (fun s => s) id id detector_incompativel ["hello"]).toOption.isSome
      = false := by
  refine ⟨by decide, by decide, by decide, rfl, rfl, ?_⟩
  rfl

/-- C4 amended: loading performs no compatibility validation — every
present artifact deserializes successfully (a wrapped artifact yields its
stored detector and metadata, a bare one the object with empty metadata);
only a missing file fails. -/
theorem C4_amended_load_never_validates :
    (carregar_modelo Option.none).toOption.isSome = false ∧
    (∀ m meta, carregar_modelo (some (PickleBlob.wrapped m meta)) =
      Except.ok (m, some meta)) ∧
    (∀ m, carregar_modelo (some (PickleBlob.bare m)) = Except.ok (m, Option.none)) :=
  ⟨rfl, fun _ _ => rfl, fun _ => rfl⟩

/-- C5: for a fitted pipeline whose vocabulary has size V, the full
feature extraction returns one vector per input text, each of length
exactly V + 6 (V lexical columns then the 6 manual scalars), for every
input list (the originals list, when passed, has the texts' length, as in
every call the pipeline makes). -/
theorem C5_feature_vector_length (vocab : List (String × ℚ))
    (textos : List (List Char)) (origs : Option (List (List Char)))
    (h : ∀ l, origs = some l → l.length = textos.length) :
    ∃ rows, extrair_features_completas vocab textos origs = some rows ∧
      rows.length = textos.length ∧
      ∀ row ∈ rows, row.length = vocab.length + 6 := by
  have horig : (origs.getD textos).length = textos.length := by
    cases origs with
    | none => rfl
    | some l => exact h l rfl
  have hman : (extrair_features_manuais textos origs).length = textos.length := by
    simp [extrair_features_manuais, List.length_zip, horig]
  have htf : (transformar_tfidf vocab textos).length = textos.length := by
    simp [transformar_tfidf]
  refine ⟨(transformar_tfidf vocab textos).zipWith (fun x y => x ++ y)
      (extrair_features_manuais textos origs), ?_, ?_, ?_⟩
  · simp [extrair_features_completas, np_hstack, htf, hman]
  · simp [List.length_zipWith, htf, hman]
  · apply zipWith_append_row_length vocab.length 6
    · intro x hx
      simp only [transformar_tfidf, List.mem_map] at hx
      obtain ⟨t, _, rfl⟩ := hx
      simp
    · intro x hx
      simp only [extrair_features_manuais, List.mem_map] at hx
      obtain ⟨par, _, rfl⟩ := hx
      simp

/-- Witness for C5 at a concrete one-term vocabulary and one input text. -/
theorem C5_feature_vector_length_witness :
    (∀ l, (Option.none : Option (List (List Char))) = some l →
      l.length = (["h".data] : List (List Char)).length) ∧
    ∃ rows, extrair_features_completas [("free", 2)] ["h".data] Option.none =
        some rows ∧
      rows.length = 1 ∧ ∀ row ∈ rows, row.length = 1 + 6 :=
  by
  constructor
  · intro l hl
    cases hl
  · exact C5_feature_vector_length [("free", 2)] ["h".data] Option.none
      (fun _ hl => by cases hl)

/-- C9: persistence round-trip — loading the artifact saved from a
detector returns the detector itself, and the loaded detector's
analisar_email result (label, probability, risk band) on any fixed input
is identical to the original detector's, for every hash, square-root and
logistic-link function and every save timestamp. -/
theorem C9_persistence_roundtrip (hash : String → String) (sqrtQ expitQ : ℚ → ℚ)
    (d : DetectorPhishing) (agora : String) (x : String) :
    DetectorPhishing.carregar (some (d.salvar agora)) = Except.ok d ∧
    (DetectorPhishing.carregar (some (d.salvar agora))).map
        (fun d2 => analisar_email hash sqrtQ expitQ d2 x) =
      Except.ok (analisar_email hash sqrtQ expitQ d x) :=
  ⟨rfl, rfl⟩

/-- C6: for every hash function, cache state, text x and value v, get(x)
right after put(x, v) returns exactly v, and get of anything after clear()
returns nothing. -/
theorem C6_cache_put_get_clear (hash : String → String)
    (c : CachePreprocessamento) (x v : String) :
    obter hash (adicionar hash c x v) x = some v ∧
    (∀ y, obter hash (limpar c) y = Option.none) := by
  constructor
  · exact lookup_dictInsert (hash x) v c.cache_memoria
  · intro y; rfl

/-- C7: normalization is deterministic across repeated calls on the same
preprocessor configuration: the second call to processar on the same input
(possibly answered from the cache the first call filled) returns the same
string as the first. -/
theorem C7_processar_determinista (hash : String → String)
    (p : PreprocessadorTexto) (x : PyInput) :
    (processar hash (processar hash p x).snd x).fst = (processar hash p x).fst := by
  cases x with
  | none => rfl
  | nonstr => rfl
  | str texto =>
    by_cases he : texto = ""
    · simp [processar, he]
    · simp only [processar, he, if_false]
      cases hc : obter hash p.cache texto with
      | some r => simp [hc]
      | none =>
        simp only [hc]
        have : obter hash
            (adicionar hash p.cache texto
              (String.mk (processar_sem_cache p.remover_stopwords p.stopwords texto.data)))
            texto =
            some (String.mk (processar_sem_cache p.remover_stopwords p.stopwords texto.data)) :=
          lookup_dictInsert _ _ _
        simp [this]

/-- C8: processar returns the empty string, raises nothing and leaves the
state untouched on None, non-string and empty-string input (the embedded
function is total — there is no error path for these inputs, matching the
silent `return ""` of the code). -/
theorem C8_entrada_invalida (hash : String → String) (p : PreprocessadorTexto) :
    processar hash p PyInput.none = ("", p) ∧
    processar hash p PyInput.nonstr = ("", p) ∧
    processar hash p (PyInput.str "") = ("", p) := by
  refine ⟨rfl, rfl, ?_⟩
  simp [processar]

/-- C10: urgency and financial keyword counts count each keyword of the
fixed lists at most once (they equal the number of list entries contained
in the lower-cased text, so a keyword repeated many times contributes 1),
match by substring containment (the keyword `act` embedded in `contact`
counts), and are bounded by the list lengths 11 and 12. -/
theorem C10_keyword_counts (texto : List Char) :
    detectar_palavras_urgencia texto =
      (palavras_urgencia.filter
        (fun palavra => containsSub palavra.data (pyLower texto))).length ∧
    detectar_palavras_financeiras texto =
      (palavras_financeiras.filter
        (fun palavra => containsSub palavra.data (pyLower texto))).length ∧
    detectar_palavras_urgencia texto ≤ 11 ∧
    detectar_palavras_financeiras texto ≤ 12 ∧
    detectar_palavras_urgencia "urgent urgent urgent".data = 1 ∧
    detectar_palavras_urgencia "contact".data = 1 ∧
    detectar_palavras_financeiras "money money prize".data = 2 := by
  have hu := sum_indicator_eq_length_filter palavras_urgencia
    (fun palavra => containsSub palavra.data (pyLower texto))
  have hf := sum_indicator_eq_length_filter palavras_financeiras
    (fun palavra => containsSub palavra.data (pyLower texto))
  refine ⟨hu, hf, ?_, ?_, by decide, by decide, by decide⟩
  · rw [detectar_palavras_urgencia, hu]
    calc (palavras_urgencia.filter _).length ≤ palavras_urgencia.length :=
          List.length_filter_le _ _
      _ = 11 := by decide
  · rw [detectar_palavras_financeiras, hf]
    calc (palavras_financeiras.filter _).length ≤ palavras_financeiras.length :=
          List.length_filter_le _ _
      _ = 12 := by decide

end Phish
